import Mathlib

/-!
Verification development for the CV Onion repository: a shallow embedding of
the three request/response schemas, the prompt-bound flows, the server-side
action wrappers and the client form orchestration, together with theorems
settling the frozen claims about them.
-/

namespace CvOnion

/-! ### Schema layer (src/src/ai/flows/analyze-cv.ts)

The zod object schemas are embedded as Lean structures.  Field types follow
the zod declarations: z.string becomes String, z.array(z.string) becomes
List String, z.number becomes Rat (a JavaScript number need not be an
integer), and the z.enum check on colorCode is kept as a runtime Bool check
on a plain String field, because the enum is the only value-level constraint
any of the schemas imposes. -/

structure AnalyzeCvInput where
  cvDataUri : String
deriving DecidableEq

structure AnalyzeCvOutput where
  skills : List String
  experience : String
  qualifications : String
deriving DecidableEq

structure AnalyzeJobDescriptionInput where
  jobDescription : String
deriving DecidableEq

structure AnalyzeJobDescriptionOutput where
  requiredSkills : List String
  requiredExperience : String
  requiredQualifications : String
deriving DecidableEq

structure MatchCvToJobInput where
  jobDescription : String
  cvContent : String
deriving DecidableEq

structure MatchCvToJobOutput where
  matchScore : Rat
  highlightedCv : String
  colorCode : String
deriving DecidableEq

/-- Value-level content of AnalyzeCvOutputSchema: beyond the field types
(already enforced by the embedding) the zod schema checks nothing. -/
def AnalyzeCvOutputSchema (_o : AnalyzeCvOutput) : Bool :=
  true

/-- Value-level content of MatchCvToJobOutputSchema: matchScore is z.number
(no range or integrality check), highlightedCv is z.string, and colorCode is
constrained by z.enum to one of green, orange, red. -/
def MatchCvToJobOutputSchema (o : MatchCvToJobOutput) : Bool :=
  o.colorCode == "green" || o.colorCode == "orange" || o.colorCode == "red"

/-- The color agreement asserted by the spec for a match response: a score
above 75 is green, a score from 51 to 75 is orange, and a score of at most
50 is red. This definition follows the words of the spec and of claim C1,
to be compared with what MatchCvToJobOutputSchema actually enforces. -/
def colorAgreesWithScore (o : MatchCvToJobOutput) : Prop :=
  (75 < o.matchScore → o.colorCode = "green") ∧
  (51 ≤ o.matchScore ∧ o.matchScore ≤ 75 → o.colorCode = "orange") ∧
  (o.matchScore ≤ 50 → o.colorCode = "red")

instance (o : MatchCvToJobOutput) : Decidable (colorAgreesWithScore o) := by
  unfold colorAgreesWithScore
  infer_instance

/-! ### Prompt-bound flows

Each flow awaits the prompt bound to its input and output schemas and
returns the structured output with a non-null assertion.  Modelled from the
spec: the prompt invocation itself (the genkit definePrompt call, a
third-party boundary outside src/) coerces the backend answer to the
declared output schema and yields no output when the backend cannot produce
a conforming answer; per the spec the operation then fails with a generic
error instead of returning a non-conforming or absent value.  The backend
answer is passed to the flow as an explicit oracle argument. -/

/-- Generic error produced when the backend cannot produce an answer that
conforms to the declared output schema. -/
def schemaValidationError : String :=
  "The backend could not produce a conforming answer."

/-- The analyzeCvPrompt boundary: accepts the backend answer only when it
conforms to AnalyzeCvOutputSchema. -/
def analyzeCvPrompt (backendAnswer : Option AnalyzeCvOutput) :
    Option AnalyzeCvOutput :=
  match backendAnswer with
  | some o => if AnalyzeCvOutputSchema o then some o else none
  | none => none

/-- analyzeCvFlow: returns the prompt output, failing when it is absent. -/
def analyzeCvFlow (backendAnswer : Option AnalyzeCvOutput) :
    Except String AnalyzeCvOutput :=
  match analyzeCvPrompt backendAnswer with
  | some o => Except.ok o
  | none => Except.error schemaValidationError

/-- The matchCvToJobPrompt boundary: accepts the backend answer only when it
conforms to MatchCvToJobOutputSchema. -/
def matchCvToJobPrompt (backendAnswer : Option MatchCvToJobOutput) :
    Option MatchCvToJobOutput :=
  match backendAnswer with
  | some o => if MatchCvToJobOutputSchema o then some o else none
  | none => none

/-- matchCvToJobFlow: returns the prompt output, failing when it is absent. -/
def matchCvToJobFlow (backendAnswer : Option MatchCvToJobOutput) :
    Except String MatchCvToJobOutput :=
  match matchCvToJobPrompt backendAnswer with
  | some o => Except.ok o
  | none => Except.error schemaValidationError

/-! ### Server-side action wrappers (actions.ts)

A JavaScript catch receives an arbitrary thrown value; the wrappers branch
on whether it is an Error instance carrying a message string.  Each wrapper
logs the original error and re-throws a sanitized one.  The outcome of the
underlying operation is an explicit oracle argument; logging is modelled as
part of the result. -/

inductive JsError where
  | error (message : String)
  | nonError
deriving DecidableEq

structure ActionResult (α : Type) where
  result : Except String α
  loggedErrors : List JsError

/-- analyzeCvAction: forwards a success unchanged; on failure logs the
original error and fails with the sanitized message. -/
def analyzeCvAction (r : Except JsError AnalyzeCvOutput) :
    ActionResult AnalyzeCvOutput :=
  match r with
  | Except.ok v => ⟨Except.ok v, []⟩
  | Except.error e =>
    ⟨Except.error
      (match e with
       | JsError.error m => "Failed to analyze CV: " ++ m
       | JsError.nonError => "Failed to analyze CV due to an unknown error."),
     [e]⟩

/-- analyzeJobDescriptionAction: same shape with its own message prefix. -/
def analyzeJobDescriptionAction (r : Except JsError AnalyzeJobDescriptionOutput) :
    ActionResult AnalyzeJobDescriptionOutput :=
  match r with
  | Except.ok v => ⟨Except.ok v, []⟩
  | Except.error e =>
    ⟨Except.error
      (match e with
       | JsError.error m => "Failed to analyze job description: " ++ m
       | JsError.nonError =>
         "Failed to analyze job description due to an unknown error."),
     [e]⟩

/-- matchCvToJobAction: same shape with its own message prefix. -/
def matchCvToJobAction (r : Except JsError MatchCvToJobOutput) :
    ActionResult MatchCvToJobOutput :=
  match r with
  | Except.ok v => ⟨Except.ok v, []⟩
  | Except.error e =>
    ⟨Except.error
      (match e with
       | JsError.error m => "Failed to match CV to job: " ++ m
       | JsError.nonError =>
         "Failed to match CV to job due to an unknown error."),
     [e]⟩

/-! ### Client form model (page.tsx)

A browser File is embedded by the three attributes the form reads: name,
size in bytes and declared MIME type.  The form values carry the raw
FileList as a Lean list. -/

structure FileInfo where
  name : String
  size : Nat
  type : String
deriving DecidableEq

structure FormValues where
  jobDescription : String
  cvFile : List FileInfo
deriving DecidableEq

/-- Per-field validation outcome of the zod form schema: none means the
field is valid, some carries the field-level message shown inline. -/
structure FieldErrors where
  jobDescription : Option String
  cvFile : Option String
deriving DecidableEq

/-- Allowed MIME types of the cvFile refinement chain. -/
def allowedCvFileType (t : String) : Bool :=
  t == "application/pdf" || t == "text/plain" ||
  t == "application/vnd.openxmlformats-officedocument.wordprocessingml.document" ||
  t == "application/msword"

/-- The three chained refinements on the cvFile field, in source order: the
FileList holds exactly one file, that file is at most 5 MB, and its type is
in the allowed set.  The first failing refinement supplies the message. -/
def validateCvFile (files : List FileInfo) : Option String :=
  match files with
  | [f] =>
    if f.size ≤ 5 * 1024 * 1024 then
      if allowedCvFileType f.type then none
      else some "CV must be a PDF, DOCX, DOC, or TXT file."
    else some "CV file size must be less than 5MB."
  | _ => some "CV file is required."

/-- formSchema: z.object with the min-length check on jobDescription and
the refinement chain on cvFile. -/
def formSchema (v : FormValues) : FieldErrors :=
  { jobDescription :=
      if v.jobDescription.length < 50 then
        some "Job description must be at least 50 characters."
      else none,
    cvFile := validateCvFile v.cvFile }

def FieldErrors.hasErrors (e : FieldErrors) : Bool :=
  e.jobDescription.isSome || e.cvFile.isSome

/-- UI state of CvOnionPage: the six useState hooks. -/
structure UIState where
  isLoading : Bool
  error : Option String
  cvAnalysis : Option AnalyzeCvOutput
  jobAnalysis : Option AnalyzeJobDescriptionOutput
  matchResult : Option MatchCvToJobOutput
  fileName : Option String
deriving DecidableEq

/-- Initial values of the six useState hooks. -/
def initialUIState : UIState :=
  { isLoading := false, error := none, cvAnalysis := none,
    jobAnalysis := none, matchResult := none, fileName := none }

/-- handleReset: clears the form and sets every state hook back to its
initial value. -/
def handleReset (_s : UIState) : UIState :=
  { cvAnalysis := none, jobAnalysis := none, matchResult := none,
    error := none, fileName := none, isLoading := false }

/-- A remote-procedure invocation made during a submission, with the input
it was invoked with. -/
inductive RemoteCall where
  | analyzeCv (input : AnalyzeCvInput)
  | analyzeJobDescription (input : AnalyzeJobDescriptionInput)
  | matchCvToJob (input : MatchCvToJobInput)
deriving DecidableEq

/-- Message extraction in the submit handler catch clause: e.message when it
is a non-empty string, the generic banner message otherwise (a non-Error
value has no message attribute and an empty message string is falsy). -/
def caughtErrorMessage (e : JsError) : String :=
  match e with
  | JsError.error m =>
    if m = "" then "An unexpected error occurred. Please try again." else m
  | JsError.nonError => "An unexpected error occurred. Please try again."

/-- Promise.all over the three operation outcomes: succeeds with the triple
when all three succeed, otherwise rejects with the reason of a rejecting
operation (taken in argument order, a deterministic rendering of the
first-settled rejection). -/
def promiseAll3 {α β γ : Type}
    (a : Except JsError α) (b : Except JsError β) (c : Except JsError γ) :
    Except JsError (α × β × γ) :=
  match a, b, c with
  | Except.ok x, Except.ok y, Except.ok z => Except.ok (x, y, z)
  | Except.error e, _, _ => Except.error e
  | _, Except.error e, _ => Except.error e
  | _, _, Except.error e => Except.error e

/-- Placeholder cvContent used when reading a non-plain-text file as text
throws. -/
def fallbackCvText : String :=
  "Could not extract text content from this file type for matching. Please use a .txt file for optimal matching analysis or copy/paste CV text."

/-- The cvTextContent computation of the submit handler: for a text/plain
file the readFileAsText outcome is used directly, so a rejection propagates
to the outer catch; for any other type a rejection is caught locally and
replaced by the placeholder. -/
def computeCvTextContent (fileType : String)
    (textRead : Except JsError String) : Except JsError String :=
  if fileType == "text/plain" then
    textRead
  else
    match textRead with
    | Except.ok t => Except.ok t
    | Except.error _ => Except.ok fallbackCvText

/-- onSubmitHandler: runs on validated form values.  The outcomes of the two
file reads and of the three remote actions are oracle arguments; the result
is the final UI state together with the list of remote invocations made.
Accessing the first file of an empty FileList throws, which the outer catch
turns into the generic banner message. -/
def onSubmitHandler (data : FormValues)
    (dataUrlRead textRead : Except JsError String)
    (cvRes : Except JsError AnalyzeCvOutput)
    (jobRes : Except JsError AnalyzeJobDescriptionOutput)
    (matchRes : Except JsError MatchCvToJobOutput)
    (s : UIState) : UIState × List RemoteCall :=
  let s0 : UIState :=
    { s with isLoading := true, error := none, cvAnalysis := none,
             jobAnalysis := none, matchResult := none }
  match data.cvFile with
  | [cvFile] =>
    match dataUrlRead with
    | Except.error e =>
      ({ s0 with error := some (caughtErrorMessage e), isLoading := false }, [])
    | Except.ok cvDataUri =>
      match computeCvTextContent cvFile.type textRead with
      | Except.error e =>
        ({ s0 with error := some (caughtErrorMessage e), isLoading := false }, [])
      | Except.ok cvTextContent =>
        let calls : List RemoteCall :=
          [RemoteCall.analyzeCv ⟨cvDataUri⟩,
           RemoteCall.analyzeJobDescription ⟨data.jobDescription⟩,
           RemoteCall.matchCvToJob ⟨data.jobDescription, cvTextContent⟩]
        match promiseAll3 cvRes jobRes matchRes with
        | Except.ok (ca, ja, mr) =>
          ({ s0 with cvAnalysis := some ca, jobAnalysis := some ja,
                     matchResult := some mr, isLoading := false }, calls)
        | Except.error e =>
          ({ s0 with error := some (caughtErrorMessage e), isLoading := false },
           calls)
  | _ =>
    ({ s0 with error := some (caughtErrorMessage JsError.nonError),
               isLoading := false }, [])

/-- handleSubmit: the react-hook-form submit gate around onSubmitHandler.
Modelled from the spec: on submit the form values are validated against
formSchema and rejected with field-level messages without proceeding;
onSubmitHandler runs only when validation passes. -/
def handleSubmit (data : FormValues)
    (dataUrlRead textRead : Except JsError String)
    (cvRes : Except JsError AnalyzeCvOutput)
    (jobRes : Except JsError AnalyzeJobDescriptionOutput)
    (matchRes : Except JsError MatchCvToJobOutput)
    (s : UIState) : UIState × FieldErrors × List RemoteCall :=
  let errs := formSchema data
  if errs.hasErrors then (s, errs, [])
  else
    let r := onSubmitHandler data dataUrlRead textRead cvRes jobRes matchRes s
    (r.1, errs, r.2)

/-! ### Match result rendering

The highlighted CV panel injects matchResult.highlightedCv with every
newline replaced by a br tag, via dangerouslySetInnerHTML, so no HTML
escaping or sanitization is applied.  The global single-character regex
replace is embedded character-wise. -/

/-- Character-wise embedding of the global replace of a newline by a br
tag. -/
def replaceNewlinesWithBr : List Char → List Char
  | [] => []
  | c :: cs =>
    (if c = '\n' then "<br />".data else [c]) ++ replaceNewlinesWithBr cs

/-- The markup string injected into the highlighted CV panel. -/
def renderedHighlightedCvHtml (highlightedCv : String) : String :=
  String.mk (replaceNewlinesWithBr highlightedCv.data)

/-! ### Sample values used by concrete witnesses -/

def sampleCvOutput : AnalyzeCvOutput :=
  ⟨["Lean"], "five years of experience", "BSc"⟩

def sampleJobOutput : AnalyzeJobDescriptionOutput :=
  ⟨["Lean"], "five years of experience", "BSc"⟩

def sampleMatchOutput : MatchCvToJobOutput :=
  ⟨80, "highlighted cv", "green"⟩

def sampleJobDescription : String :=
  "We are seeking an engineer with extensive experience in formal verification."

def sampleTxtFile : FileInfo :=
  ⟨"cv.txt", 1024, "text/plain"⟩

def samplePdfFile : FileInfo :=
  ⟨"cv.pdf", 1024, "application/pdf"⟩

def sampleFormValues : FormValues :=
  ⟨sampleJobDescription, [sampleTxtFile]⟩

/-- The sample job description passes the 50-character minimum. -/
theorem sampleJobDescription_long_enough : 50 ≤ sampleJobDescription.length := by
  decide

/-! ### Claims -/

/-- Claim C1, counterexample: the color code of a successful match response
is not forced to agree with the match score.  The response with score 0 and
color green conforms to MatchCvToJobOutputSchema, which is all the code
enforces, yet violates the threshold agreement stated by the claim. -/
theorem color_agreement_not_enforced :
    MatchCvToJobOutputSchema ⟨0, "cv", "green"⟩ = true ∧
    ¬ colorAgreesWithScore ⟨0, "cv", "green"⟩ := by
  decide

/-- Claim C1, amended: for every successful match response, the color code
is constrained only to be one of green, orange and red; agreement with the
score under the fixed thresholds is requested of the model by the prompt
but never recomputed or enforced by the code. -/
theorem match_color_code_is_enum_only (o : MatchCvToJobOutput)
    (h : MatchCvToJobOutputSchema o = true) :
    o.colorCode = "green" ∨ o.colorCode = "orange" ∨ o.colorCode = "red" := by
  simp [MatchCvToJobOutputSchema] at h
  tauto

/-- Witness for match_color_code_is_enum_only at a concrete conforming
response. -/
theorem match_color_code_is_enum_only_witness :
    (⟨80, "cv", "green"⟩ : MatchCvToJobOutput).colorCode = "green" ∨
    (⟨80, "cv", "green"⟩ : MatchCvToJobOutput).colorCode = "orange" ∨
    (⟨80, "cv", "green"⟩ : MatchCvToJobOutput).colorCode = "red" :=
  match_color_code_is_enum_only ⟨80, "cv", "green"⟩ (by decide)

/-- Claim C6, counterexample: the match score of a successful match response
is not forced into the range 0 to 100.  The response with score 150
conforms to MatchCvToJobOutputSchema, which is all the code enforces. -/
theorem match_score_range_not_enforced :
    MatchCvToJobOutputSchema ⟨150, "cv", "red"⟩ = true ∧
    ¬ ((⟨150, "cv", "red"⟩ : MatchCvToJobOutput).matchScore ≤ 100) := by
  decide

/-- Claim C6, amended: the match score of a successful match response is a
number, but the 0 to 100 integer range appears only in the schema field
description and the prompt text: schema conformance is independent of the
match score, so a conforming response may carry any score. -/
theorem schema_ignores_match_score (o : MatchCvToJobOutput) (x : Rat) :
    MatchCvToJobOutputSchema { o with matchScore := x }
      = MatchCvToJobOutputSchema o :=
  rfl

/-- Claim C3: each prompt-bound flow either returns an output conforming to
its declared output schema or fails; in particular, when the backend cannot
produce a conforming answer the flow fails with the generic error rather
than returning a non-conforming or absent value. -/
theorem flows_conform_or_fail :
    (∀ b, (∃ o, matchCvToJobFlow b = Except.ok o ∧
                MatchCvToJobOutputSchema o = true) ∨
          matchCvToJobFlow b = Except.error schemaValidationError) ∧
    (matchCvToJobFlow none = Except.error schemaValidationError) ∧
    (∀ o, MatchCvToJobOutputSchema o = false →
          matchCvToJobFlow (some o) = Except.error schemaValidationError) ∧
    (∀ b, (∃ o, analyzeCvFlow b = Except.ok o ∧
                AnalyzeCvOutputSchema o = true) ∨
          analyzeCvFlow b = Except.error schemaValidationError) ∧
    (analyzeCvFlow none = Except.error schemaValidationError) := by
  refine ⟨?_, rfl, ?_, ?_, rfl⟩
  · intro b
    cases b with
    | none => exact Or.inr rfl
    | some o =>
      cases hB : MatchCvToJobOutputSchema o with
      | true =>
        exact Or.inl ⟨o, by simp [matchCvToJobFlow, matchCvToJobPrompt, hB], hB⟩
      | false =>
        exact Or.inr (by simp [matchCvToJobFlow, matchCvToJobPrompt, hB])
  · intro o h
    simp [matchCvToJobFlow, matchCvToJobPrompt, h]
  · intro b
    cases b with
    | none => exact Or.inr rfl
    | some o => exact Or.inl ⟨o, rfl, rfl⟩

/-- Witness for flows_conform_or_fail: a backend answer with a color code
outside the enum makes the match flow fail with the generic error. -/
theorem flows_conform_or_fail_witness :
    matchCvToJobFlow (some ⟨50, "cv", "blue"⟩)
      = Except.error schemaValidationError :=
  flows_conform_or_fail.2.2.1 ⟨50, "cv", "blue"⟩ (by decide)

/-- Claim C5: each action wrapper logs the original error and fails with
the message built from its operation name and the original message when the
thrown value is an Error carrying a message, and with the generic
unknown-error message when it carries none. -/
theorem actions_log_and_sanitize_errors :
    (∀ m, analyzeCvAction (Except.error (JsError.error m))
        = ⟨Except.error ("Failed to analyze CV: " ++ m), [JsError.error m]⟩) ∧
    (analyzeCvAction (Except.error JsError.nonError)
        = ⟨Except.error "Failed to analyze CV due to an unknown error.",
           [JsError.nonError]⟩) ∧
    (∀ m, analyzeJobDescriptionAction (Except.error (JsError.error m))
        = ⟨Except.error ("Failed to analyze job description: " ++ m),
           [JsError.error m]⟩) ∧
    (analyzeJobDescriptionAction (Except.error JsError.nonError)
        = ⟨Except.error
             "Failed to analyze job description due to an unknown error.",
           [JsError.nonError]⟩) ∧
    (∀ m, matchCvToJobAction (Except.error (JsError.error m))
        = ⟨Except.error ("Failed to match CV to job: " ++ m),
           [JsError.error m]⟩) ∧
    (matchCvToJobAction (Except.error JsError.nonError)
        = ⟨Except.error "Failed to match CV to job due to an unknown error.",
           [JsError.nonError]⟩) :=
  ⟨fun _ => rfl, rfl, fun _ => rfl, rfl, fun _ => rfl, rfl⟩

/-- Promise.all rejects whenever any of the three joined operations
rejects. -/
theorem promiseAll3_error_of_any {α β γ : Type}
    (a : Except JsError α) (b : Except JsError β) (c : Except JsError γ)
    (h : (∃ e, a = Except.error e) ∨ (∃ e, b = Except.error e) ∨
         (∃ e, c = Except.error e)) :
    ∃ e, promiseAll3 a b c = Except.error e := by
  cases a with
  | error e => exact ⟨e, by cases b <;> cases c <;> rfl⟩
  | ok x =>
    cases b with
    | error e => exact ⟨e, by cases c <;> rfl⟩
    | ok y =>
      cases c with
      | error e => exact ⟨e, rfl⟩
      | ok z => rcases h with ⟨e, he⟩ | ⟨e, he⟩ | ⟨e, he⟩ <;> simp at he

/-- Claim C2: whenever a submission reaches the three concurrent remote
operations and at least one of them rejects, in any combination, the UI
ends in the error state with a single banner message and none of the three
result panels is populated; no partial success is shown. -/
theorem any_operation_failure_gives_error_state (data : FormValues)
    (f : FileInfo) (u t : String) (textRead : Except JsError String)
    (cvRes : Except JsError AnalyzeCvOutput)
    (jobRes : Except JsError AnalyzeJobDescriptionOutput)
    (matchRes : Except JsError MatchCvToJobOutput) (s : UIState)
    (hf : data.cvFile = [f])
    (ht : computeCvTextContent f.type textRead = Except.ok t)
    (hfail : (∃ e, cvRes = Except.error e) ∨ (∃ e, jobRes = Except.error e) ∨
             (∃ e, matchRes = Except.error e)) :
    (∃ m, (onSubmitHandler data (Except.ok u) textRead cvRes jobRes matchRes
            s).1.error = some m) ∧
    (onSubmitHandler data (Except.ok u) textRead cvRes jobRes matchRes
      s).1.cvAnalysis = none ∧
    (onSubmitHandler data (Except.ok u) textRead cvRes jobRes matchRes
      s).1.jobAnalysis = none ∧
    (onSubmitHandler data (Except.ok u) textRead cvRes jobRes matchRes
      s).1.matchResult = none ∧
    (onSubmitHandler data (Except.ok u) textRead cvRes jobRes matchRes
      s).1.isLoading = false := by
  obtain ⟨e, hpe⟩ := promiseAll3_error_of_any cvRes jobRes matchRes hfail
  simp [onSubmitHandler, hf, ht, hpe]

/-- Witness for any_operation_failure_gives_error_state: the CV analysis
rejects while the two other operations succeed. -/
theorem any_operation_failure_gives_error_state_witness :
    (∃ m, (onSubmitHandler sampleFormValues (Except.ok "data:text/plain;base64,")
            (Except.ok "cv text") (Except.error (JsError.error "backend down"))
            (Except.ok sampleJobOutput) (Except.ok sampleMatchOutput)
            initialUIState).1.error = some m) ∧
    (onSubmitHandler sampleFormValues (Except.ok "data:text/plain;base64,")
      (Except.ok "cv text") (Except.error (JsError.error "backend down"))
      (Except.ok sampleJobOutput) (Except.ok sampleMatchOutput)
      initialUIState).1.cvAnalysis = none ∧
    (onSubmitHandler sampleFormValues (Except.ok "data:text/plain;base64,")
      (Except.ok "cv text") (Except.error (JsError.error "backend down"))
      (Except.ok sampleJobOutput) (Except.ok sampleMatchOutput)
      initialUIState).1.jobAnalysis = none ∧
    (onSubmitHandler sampleFormValues (Except.ok "data:text/plain;base64,")
      (Except.ok "cv text") (Except.error (JsError.error "backend down"))
      (Except.ok sampleJobOutput) (Except.ok sampleMatchOutput)
      initialUIState).1.matchResult = none ∧
    (onSubmitHandler sampleFormValues (Except.ok "data:text/plain;base64,")
      (Except.ok "cv text") (Except.error (JsError.error "backend down"))
      (Except.ok sampleJobOutput) (Except.ok sampleMatchOutput)
      initialUIState).1.isLoading = false :=
  any_operation_failure_gives_error_state sampleFormValues sampleTxtFile
    "data:text/plain;base64," "cv text" (Except.ok "cv text")
    (Except.error (JsError.error "backend down")) (Except.ok sampleJobOutput)
    (Except.ok sampleMatchOutput) initialUIState rfl rfl
    (Or.inl ⟨JsError.error "backend down", rfl⟩)

/-- Claim C4, counterexample: for a text/plain file whose text decode
rejects, the submission does not proceed with the fallback placeholder:
the rejection propagates to the outer catch, the banner error is shown and
no remote operation is invoked at all. -/
theorem txt_decode_failure_aborts_submission :
    handleSubmit sampleFormValues (Except.ok "data:text/plain;base64,")
      (Except.error JsError.nonError) (Except.ok sampleCvOutput)
      (Except.ok sampleJobOutput) (Except.ok sampleMatchOutput) initialUIState
    = ({ initialUIState with
          error := some "An unexpected error occurred. Please try again." },
       ⟨none, none⟩, []) := by
  rfl

/-- Claim C4, amended: only for files whose declared type is not text/plain
does a text-decode rejection fall back to the placeholder: the submission
proceeds and the match operation is invoked with the fallback placeholder
string as its CV content; for a text/plain file the rejection aborts the
whole submission instead. -/
theorem non_txt_decode_failure_uses_fallback (data : FormValues)
    (f : FileInfo) (u : String) (e : JsError)
    (cvRes : Except JsError AnalyzeCvOutput)
    (jobRes : Except JsError AnalyzeJobDescriptionOutput)
    (matchRes : Except JsError MatchCvToJobOutput) (s : UIState)
    (hf : data.cvFile = [f]) (hty : f.type ≠ "text/plain") :
    (onSubmitHandler data (Except.ok u) (Except.error e) cvRes jobRes matchRes
      s).2
    = [RemoteCall.analyzeCv ⟨u⟩,
       RemoteCall.analyzeJobDescription ⟨data.jobDescription⟩,
       RemoteCall.matchCvToJob ⟨data.jobDescription, fallbackCvText⟩] := by
  have hcc : computeCvTextContent f.type (Except.error e)
      = Except.ok fallbackCvText := by
    simp [computeCvTextContent, hty]
  cases hp : promiseAll3 cvRes jobRes matchRes with
  | ok v => simp [onSubmitHandler, hf, hcc, hp]
  | error e2 => simp [onSubmitHandler, hf, hcc, hp]

/-- Witness for non_txt_decode_failure_uses_fallback at a PDF upload whose
text decode rejects. -/
theorem non_txt_decode_failure_uses_fallback_witness :
    (onSubmitHandler ⟨sampleJobDescription, [samplePdfFile]⟩
      (Except.ok "data:application/pdf;base64,") (Except.error JsError.nonError)
      (Except.ok sampleCvOutput) (Except.ok sampleJobOutput)
      (Except.ok sampleMatchOutput) initialUIState).2
    = [RemoteCall.analyzeCv ⟨"data:application/pdf;base64,"⟩,
       RemoteCall.analyzeJobDescription ⟨sampleJobDescription⟩,
       RemoteCall.matchCvToJob ⟨sampleJobDescription, fallbackCvText⟩] :=
  non_txt_decode_failure_uses_fallback ⟨sampleJobDescription, [samplePdfFile]⟩
    samplePdfFile "data:application/pdf;base64," JsError.nonError
    (Except.ok sampleCvOutput) (Except.ok sampleJobOutput)
    (Except.ok sampleMatchOutput) initialUIState rfl (by decide)

/-- Claim C7: a submission whose job description is shorter than 50
characters is blocked: the UI state is unchanged, the length-validation
message is reported on the jobDescription field, and none of the three
remote operations is invoked. -/
theorem short_job_description_blocks_submission (data : FormValues)
    (dataUrlRead textRead : Except JsError String)
    (cvRes : Except JsError AnalyzeCvOutput)
    (jobRes : Except JsError AnalyzeJobDescriptionOutput)
    (matchRes : Except JsError MatchCvToJobOutput) (s : UIState)
    (h : data.jobDescription.length < 50) :
    handleSubmit data dataUrlRead textRead cvRes jobRes matchRes s
      = (s, formSchema data, []) ∧
    (formSchema data).jobDescription
      = some "Job description must be at least 50 characters." := by
  have hj : (formSchema data).jobDescription
      = some "Job description must be at least 50 characters." := by
    simp [formSchema, h]
  have herr : (formSchema data).hasErrors = true := by
    simp [FieldErrors.hasErrors, hj]
  exact ⟨by simp [handleSubmit, herr], hj⟩

/-- Witness for short_job_description_blocks_submission at a 9-character
job description. -/
theorem short_job_description_blocks_submission_witness :
    handleSubmit ⟨"too short", [sampleTxtFile]⟩ (Except.ok "data:")
      (Except.ok "cv text") (Except.ok sampleCvOutput)
      (Except.ok sampleJobOutput) (Except.ok sampleMatchOutput) initialUIState
      = (initialUIState, formSchema ⟨"too short", [sampleTxtFile]⟩, []) ∧
    (formSchema ⟨"too short", [sampleTxtFile]⟩).jobDescription
      = some "Job description must be at least 50 characters." :=
  short_job_description_blocks_submission ⟨"too short", [sampleTxtFile]⟩
    (Except.ok "data:") (Except.ok "cv text") (Except.ok sampleCvOutput)
    (Except.ok sampleJobOutput) (Except.ok sampleMatchOutput) initialUIState
    (by decide)

/-- Claim C8: a submission is blocked with a field-level message on the
cvFile field, the UI state is unchanged and none of the three remote
operations is invoked, whenever the FileList does not hold exactly one
file, or the file exceeds 5 MB, or its type is outside the allowed set. -/
theorem invalid_cv_file_blocks_submission (data : FormValues)
    (dataUrlRead textRead : Except JsError String)
    (cvRes : Except JsError AnalyzeCvOutput)
    (jobRes : Except JsError AnalyzeJobDescriptionOutput)
    (matchRes : Except JsError MatchCvToJobOutput) (s : UIState)
    (h : (∀ f, data.cvFile ≠ [f]) ∨
         (∃ f, data.cvFile = [f] ∧
            (5 * 1024 * 1024 < f.size ∨ allowedCvFileType f.type = false))) :
    handleSubmit data dataUrlRead textRead cvRes jobRes matchRes s
      = (s, formSchema data, []) ∧
    (∃ m, (formSchema data).cvFile = some m) := by
  have hv : ∃ m, validateCvFile data.cvFile = some m := by
    rcases h with hne | ⟨f, hf, hcase⟩
    · match hl : data.cvFile with
      | [] => exact ⟨"CV file is required.", rfl⟩
      | [g] => exact absurd hl (hne g)
      | g1 :: g2 :: r => exact ⟨"CV file is required.", rfl⟩
    · rw [hf]
      rcases hcase with hsz | hty
      · exact ⟨"CV file size must be less than 5MB.",
          by simp [validateCvFile, not_le.mpr hsz]⟩
      · by_cases hs : f.size ≤ 5 * 1024 * 1024
        · exact ⟨"CV must be a PDF, DOCX, DOC, or TXT file.",
            by simp [validateCvFile, hs, hty]⟩
        · exact ⟨"CV file size must be less than 5MB.",
            by simp [validateCvFile, hs]⟩
  obtain ⟨m, hm⟩ := hv
  have herr : (formSchema data).hasErrors = true := by
    simp [FieldErrors.hasErrors, formSchema, hm]
  exact ⟨by simp [handleSubmit, herr], ⟨m, by simp [formSchema, hm]⟩⟩

/-- Witness for invalid_cv_file_blocks_submission at a 6 MB file. -/
theorem invalid_cv_file_blocks_submission_witness :
    handleSubmit ⟨sampleJobDescription, [⟨"big.txt", 6 * 1024 * 1024, "text/plain"⟩]⟩
      (Except.ok "data:") (Except.ok "cv text") (Except.ok sampleCvOutput)
      (Except.ok sampleJobOutput) (Except.ok sampleMatchOutput) initialUIState
      = (initialUIState,
         formSchema ⟨sampleJobDescription,
           [⟨"big.txt", 6 * 1024 * 1024, "text/plain"⟩]⟩, []) ∧
    (∃ m, (formSchema ⟨sampleJobDescription,
           [⟨"big.txt", 6 * 1024 * 1024, "text/plain"⟩]⟩).cvFile = some m) :=
  invalid_cv_file_blocks_submission
    ⟨sampleJobDescription, [⟨"big.txt", 6 * 1024 * 1024, "text/plain"⟩]⟩
    (Except.ok "data:") (Except.ok "cv text") (Except.ok sampleCvOutput)
    (Except.ok sampleJobOutput) (Except.ok sampleMatchOutput) initialUIState
    (Or.inr ⟨⟨"big.txt", 6 * 1024 * 1024, "text/plain"⟩, rfl,
      Or.inl (by decide)⟩)

/-- Claim C9: invoking reset after any submission, successful or failed,
restores the initial UI state: the three stored results, the error message,
the displayed file name and the loading flag are all cleared. -/
theorem reset_restores_initial_state (data : FormValues)
    (dataUrlRead textRead : Except JsError String)
    (cvRes : Except JsError AnalyzeCvOutput)
    (jobRes : Except JsError AnalyzeJobDescriptionOutput)
    (matchRes : Except JsError MatchCvToJobOutput) (s : UIState) :
    handleReset
      (handleSubmit data dataUrlRead textRead cvRes jobRes matchRes s).1
      = initialUIState :=
  rfl

/-- The character-wise newline replacement leaves a newline-free character
list unchanged. -/
theorem replaceNewlinesWithBr_of_no_newline (l : List Char)
    (h : ∀ c ∈ l, c ≠ '\n') : replaceNewlinesWithBr l = l := by
  induction l with
  | nil => rfl
  | cons c cs ih =>
    have hc : c ≠ '\n' := h c (List.mem_cons_self c cs)
    simp [replaceNewlinesWithBr, hc,
      ih (fun x hx => h x (List.mem_cons_of_mem c hx))]

/-- Claim C10: the highlighted CV panel markup is the model-returned
highlightedCv string with every newline replaced by a br tag and no other
transformation: a newline-free string is injected verbatim (so markup such
as a script tag passes through without escaping or sanitization), and each
newline becomes exactly the br tag. -/
theorem highlighted_cv_injected_raw :
    (∀ s : String, (∀ c ∈ s.data, c ≠ '\n') →
       renderedHighlightedCvHtml s = s) ∧
    (∀ xs ys : List Char,
       replaceNewlinesWithBr (xs ++ '\n' :: ys)
         = replaceNewlinesWithBr xs ++ "<br />".data
             ++ replaceNewlinesWithBr ys) ∧
    renderedHighlightedCvHtml "<script>x</script>" = "<script>x</script>" := by
  refine ⟨?_, ?_, by decide⟩
  · intro s h
    show String.mk (replaceNewlinesWithBr s.data) = s
    rw [replaceNewlinesWithBr_of_no_newline s.data h]
  · intro xs ys
    induction xs with
    | nil => simp [replaceNewlinesWithBr]
    | cons c cs ih => simp [replaceNewlinesWithBr, ih, List.append_assoc]

/-- Witness for highlighted_cv_injected_raw: a newline-free fragment with
markup is injected verbatim. -/
theorem highlighted_cv_injected_raw_witness :
    renderedHighlightedCvHtml "<b>resume</b>" = "<b>resume</b>" :=
  highlighted_cv_injected_raw.1 "<b>resume</b>" (by decide)

end CvOnion
